import Mathlib

/-!
# Verification of the RBAC starter's authorization core

Shallow embedding of the authentication/authorization logic of the
nestjs-RBAC-starter repository:

* `src/auth/auth.service.ts` — `AuthService.validateUser`, `login`, `signup`;
* `src/user/user.service.ts` — `UserService.create`, `findOneByEmail`;
* `src/auth/jwt-auth.guard.ts` — `JwtAuthGuard.handleRequest`;
* `src/auth/roles.guard.ts` (given in the RBAC guide) — `RolesGuard.canActivate`;
* `src/auth/permissions.guard.ts` (given in the dynamic RBAC guide) —
  `PermissionsGuard.canActivate`;
* the dynamic guide's Step-4 `login` payload builder (the authorization
  snapshot builder).

JavaScript objects that cross a serialization boundary are embedded as
association lists `List (String × Value)` so that presence/absence of a field
(e.g. the stripped `password`, or a missing `permissions` claim) is a provable
proposition.  Databases are embedded as lists of users with explicit state
passing; thrown exceptions become `Except` values.
-/

/-- A JSON-like field value as it appears in payloads and responses. -/
inductive Value where
  | vStr : String → Value
  | vNat : Nat → Value
  | vStrList : List String → Value
deriving DecidableEq, Repr

/-- The `users` entity (`src/user/user.entity.ts`): id, unique username,
password digest, unique email, roles (a `simple-array` of role strings,
default `[user]`). -/
structure User where
  id : Nat
  username : String
  password : String
  email : String
  roles : List String
deriving DecidableEq, Repr

/-- The fields of a `User` row as a JS object, in entity declaration order. -/
def userFields (u : User) : List (String × Value) :=
  [("id", Value.vNat u.id),
   ("username", Value.vStr u.username),
   ("password", Value.vStr u.password),
   ("email", Value.vStr u.email),
   ("roles", Value.vStrList u.roles)]

/-- JS rest destructuring `const \x7b password, ...result \x7d = obj`: every
field except the named key survives into `result`. -/
def omitKey (k : String) (fields : List (String × Value)) : List (String × Value) :=
  fields.filter (fun kv => kv.1 ≠ k)

/-- JS optional chaining `roles?.includes(x)`: `undefined` (here `none`) when
the receiver is `undefined`, otherwise the boolean membership test. -/
def jsOptIncludes (roles : Option (List String)) (x : String) : Option Bool :=
  roles.map (fun l => l.contains x)

/-- JS truthiness coercion of a possibly-`undefined` boolean: `undefined` is
falsy. -/
def truthy : Option Bool → Bool
  | none => false
  | some b => b

/-- `RolesGuard.canActivate` (RBAC guide, `src/auth/roles.guard.ts`):
if no `@Roles` metadata is present allow; otherwise
`requiredRoles.some((role) => user.roles?.includes(role))`. -/
def rolesGuardCanActivate (requiredRoles : Option (List String))
    (userRoles : Option (List String)) : Bool :=
  match requiredRoles with
  | none => true
  | some rs => rs.any (fun r => truthy (jsOptIncludes userRoles r))

/-- `PermissionsGuard.canActivate` (dynamic RBAC guide,
`src/auth/permissions.guard.ts`): if no `@HasPermissions` metadata is present
allow; otherwise with `userPermissions = user.permissions || []`,
`requiredPermissions.every(p => userPermissions.includes(p))`. -/
def permissionsGuardCanActivate (requiredPermissions : Option (List String))
    (userPermissions : Option (List String)) : Bool :=
  match requiredPermissions with
  | none => true
  | some ps => ps.all (fun p => (userPermissions.getD []).contains p)

/-- Outcome of a guard as NestJS sees it: `canActivate` returning `true`
allows the request, returning `false` makes the framework reject it with a
single fixed forbidden response (no further payload leaves the guard). -/
inductive GateDecision where
  | allow : GateDecision
  | deny : GateDecision
deriving DecidableEq, Repr

/-- Lift a `canActivate` boolean to the framework-level decision. -/
def decisionOf (b : Bool) : GateDecision :=
  if b then GateDecision.allow else GateDecision.deny

/-- The decision for an operation that declares the required-role set `R`
(guarded by `RolesGuard`); a deny here is the spec's `InsufficientRole`. -/
def roleGate (R : List String) (userRoles : Option (List String)) : GateDecision :=
  decisionOf (rolesGuardCanActivate (some R) userRoles)

/-- The decision for an operation that declares the required-permission set
`P` (guarded by `PermissionsGuard`); a deny here is the spec's
`InsufficientPermission`. -/
def permGate (P : List String) (userPermissions : Option (List String)) : GateDecision :=
  decisionOf (permissionsGuardCanActivate (some P) userPermissions)

/-- The permissions among `P` that the claims set lacks — what an
`InsufficientPermission` error would have to name. -/
def missingPermissions (P userPermissions : List String) : List String :=
  P.filter (fun p => ¬ userPermissions.contains p)

/-- The `Permission` entity of the dynamic RBAC guide: an id and a unique
atomic capability name such as `create-articles`. -/
structure Permission where
  id : Nat
  name : String
deriving DecidableEq, Repr

/-- The `Role` entity of the dynamic RBAC guide: an id, a unique name, and a
many-to-many list of permissions (eagerly loaded). -/
structure Role where
  id : Nat
  name : String
  permissions : List Permission
deriving DecidableEq, Repr

/-- JS `[...new Set(xs)]`: deduplication keeping first occurrences, in
insertion order. -/
def jsSetDedup (xs : List String) : List String :=
  xs.foldl (fun acc x => if acc.contains x then acc else acc ++ [x]) []

/-- The authorization snapshot builder of the dynamic guide's Step-4 `login`:
`user.roles.flatMap(role => role.permissions.map(p => p.name))` followed by
`[...new Set(permissions)]`. -/
def snapshotPermissions (roles : List Role) : List String :=
  jsSetDedup (roles.flatMap (fun role => role.permissions.map Permission.name))

/-- A concrete role granting `create-articles` and `edit-articles`. -/
def articlesAdminRole : Role :=
  ⟨1, "articles-admin", [⟨1, "create-articles"⟩, ⟨2, "edit-articles"⟩]⟩

/-- A concrete role granting only `edit-articles`. -/
def articlesEditorRole : Role :=
  ⟨2, "articles-editor", [⟨2, "edit-articles"⟩]⟩

/-- Internal authentication error kinds (spec §7 taxonomy): the service
throws `NotFoundException("User not found")` and
`UnauthorizedException("Invalid credentials")`. -/
inductive AuthError where
  | identityNotFound : AuthError
  | invalidCredentials : AuthError
deriving DecidableEq, Repr

/-- An HTTP response as observed at the transport boundary: status code and
message body. -/
structure HttpResponse where
  status : Nat
  message : String
deriving DecidableEq, Repr

/-- `UserService.findOneByEmail`: the first stored user whose email matches. -/
def findOneByEmail (db : List User) (email : String) : Option User :=
  db.find? (fun u => u.email == email)

/-- `UserService.findOneByUsername`: the first stored user whose username
matches. -/
def findOneByUsername (db : List User) (username : String) : Option User :=
  db.find? (fun u => u.username == username)

/-- `AuthService.validateUser(email, pass)`: look up by email — absent throws
`NotFoundException`; present, bcrypt-compare the supplied password with the
stored digest — on match return the user sans password, on mismatch throw
`UnauthorizedException`.  The bcrypt comparison is the external collaborator
`compare`. -/
def validateUser (compare : String → String → Bool) (db : List User)
    (email pass : String) : Except AuthError (List (String × Value)) :=
  match findOneByEmail db email with
  | none => Except.error AuthError.identityNotFound
  | some u =>
    if compare pass u.password then Except.ok (omitKey "password" (userFields u))
    else Except.error AuthError.invalidCredentials

/-- The HTTP responses NestJS renders for the exceptions `validateUser`
throws: `NotFoundException` is status 404, `UnauthorizedException` with a
message is status 401. -/
def authErrorResponse : AuthError → HttpResponse
  | AuthError.identityNotFound => HttpResponse.mk 404 "User not found"
  | AuthError.invalidCredentials => HttpResponse.mk 401 "Invalid credentials"

/-- The transport-boundary outcome of a failed login attempt (`none` when the
attempt succeeded). -/
def loginFailureResponse (compare : String → String → Bool) (db : List User)
    (email pass : String) : Option HttpResponse :=
  match validateUser compare db email pass with
  | Except.error e => some (authErrorResponse e)
  | Except.ok _ => none

/-- Which uniqueness invariant a signup conflict violated. -/
inductive ConflictField where
  | email : ConflictField
  | username : ConflictField
deriving DecidableEq, Repr

/-- A `ConflictException` carrying the message `UserService.create` throws. -/
structure ConflictError where
  field : ConflictField
  message : String
deriving DecidableEq, Repr

/-- `UserService.create(email, username, pass)` with the repository state
passed explicitly: check the email invariant, then the username invariant,
and only then hash the password and save.  A thrown `ConflictException`
leaves the store untouched (the save is never reached).  `hash` is the
external bcrypt collaborator, `nextId` the generated primary key; the entity
default attaches role `user`. -/
def create (hash : String → String) (db : List User) (nextId : Nat)
    (email username pass : String) : Except ConflictError User × List User :=
  if (findOneByEmail db email).isSome then
    (Except.error (ConflictError.mk ConflictField.email
      "User with this email already exists"), db)
  else if (findOneByUsername db username).isSome then
    (Except.error (ConflictError.mk ConflictField.username
      "User with this username already exists"), db)
  else
    let newUser : User := User.mk nextId username (hash pass) email ["user"]
    (Except.ok newUser, db ++ [newUser])

/-- The shape of `apiResponse(statusCode, message, data)` from
`src/common/helpers/response.helper.ts`. -/
structure ApiResponse where
  statusCode : Nat
  message : String
  data : List (String × Value)
deriving DecidableEq, Repr

/-- `AuthService.signup`: create the user, strip the password digest from the
result, wrap it in `apiResponse(201, "Signup successful", result)`; conflicts
propagate unchanged. -/
def signup (hash : String → String) (db : List User) (nextId : Nat)
    (email username pass : String) : Except ConflictError ApiResponse × List User :=
  match create hash db nextId email username pass with
  | (Except.error e, db2) => (Except.error e, db2)
  | (Except.ok u, db2) =>
    (Except.ok (ApiResponse.mk 201 "Signup successful"
      (omitKey "password" (userFields u))), db2)

/-- The JWT claims payload built by the shipped `AuthService.login`:
`payload = (email, username, sub: user.id, roles: user.roles)`. -/
def loginPayload (u : User) : List (String × Value) :=
  [("email", Value.vStr u.email),
   ("username", Value.vStr u.username),
   ("sub", Value.vNat u.id),
   ("roles", Value.vStrList u.roles)]

/-- Token verification error kinds (spec §4.5): `Malformed`, `BadSignature`,
`Expired`. -/
inductive TokenError where
  | malformed : TokenError
  | badSignature : TokenError
  | expired : TokenError
deriving DecidableEq, Repr

/-- Modelled from the spec: the Token Codec claims payload (§3) — the signed
fields plus the expiry timestamp the codec adds at issuance
(`exp = now + TTL`).  The codec itself (the `jsonwebtoken` library behind
`JwtService`) is an external collaborator, not code under `src/`. -/
structure TokenPayload where
  fields : List (String × Value)
  exp : Nat
deriving DecidableEq, Repr

/-- Modelled from the spec: a deterministic hash of one field value, used to
build the signature over the full payload (§6 token transport). -/
def valueHash : Value → Nat
  | Value.vStr s => s.foldl (fun h c => h * 31 + c.toNat) 7
  | Value.vNat n => n * 31 + 1
  | Value.vStrList l =>
    l.foldl (fun h s => h * 33 + s.foldl (fun h2 c => h2 * 31 + c.toNat) 7) 11

/-- Modelled from the spec: the signature of a payload under a signing key —
deterministic in the key and the full payload. -/
def signature (key : Nat) (p : TokenPayload) : Nat :=
  p.fields.foldl
    (fun h kv => h * 37 + valueHash (Value.vStr kv.1) * 31 + valueHash kv.2)
    (key * 41 + p.exp)

/-- A transported token: a structurally well-formed token decodes to a
payload (`some`), a malformed one does not (`none`); `sig` is the signature
it carries. -/
structure Token where
  payload : Option TokenPayload
  sig : Nat
deriving DecidableEq, Repr

/-- Modelled from the spec (§4.5): `verify` checks structural
well-formedness, then signature validity against the signing key, then
expiry (valid iff `now < exp`), each failure short-circuiting with its own
distinguishable kind. -/
def verify (key now : Nat) (t : Token) : Except TokenError TokenPayload :=
  match t.payload with
  | none => Except.error TokenError.malformed
  | some p =>
    if t.sig ≠ signature key p then Except.error TokenError.badSignature
    else if now < p.exp then Except.ok p
    else Except.error TokenError.expired

/-- Modelled from the spec (§4.5): `sign` issues the well-formed token whose
signature matches its payload. -/
def sign (key : Nat) (p : TokenPayload) : Token :=
  Token.mk (some p) (signature key p)

/-- `JwtAuthGuard.handleRequest` (`src/auth/jwt-auth.guard.ts`): when
verification failed, a `TokenExpiredError` becomes
`HttpException("JWT token has expired", 401)`; any other failure falls
through to `UnauthorizedException()` (message `Unauthorized`, status 401);
success passes the verified user through. -/
def handleRequest (result : Except TokenError TokenPayload) :
    Except HttpResponse TokenPayload :=
  match result with
  | Except.ok u => Except.ok u
  | Except.error TokenError.expired =>
    Except.error (HttpResponse.mk 401 "JWT token has expired")
  | Except.error _ => Except.error (HttpResponse.mk 401 "Unauthorized")

/-- The result of the shipped `AuthService.login`: `apiResponse(200, "Login
successful", (access_token))`, the token signing `loginPayload u` with the
expiry the codec attaches. -/
structure LoginResult where
  statusCode : Nat
  message : String
  access_token : Token
deriving DecidableEq, Repr

/-- The shipped `AuthService.login` run at time `now` with the configured
signing key and TTL. -/
def login (key now ttl : Nat) (u : User) : LoginResult :=
  LoginResult.mk 200 "Login successful" (sign key (TokenPayload.mk (loginPayload u) (now + ttl)))

/-- A concrete registered user for witnesses: alice, with the entity-default
role `user`; her stored digest is `bcryptHash` of `alicepw`. -/
def bcryptHash (pass : String) : String :=
  "$2b$10$" ++ pass

/-- The matching bcrypt comparison for `bcryptHash`. -/
def bcryptCompare (pass digest : String) : Bool :=
  digest == bcryptHash pass

/-- Alice, the registered principal used in concrete witnesses. -/
def alice : User :=
  User.mk 1 "alice" (bcryptHash "alicepw") "alice@example.com" ["user"]

/-- Bob, a second principal, as stored by a successful signup. -/
def bobUser : User :=
  User.mk 2 "bob" (bcryptHash "bobpw") "bob@example.com" ["user"]

/-- A `decisionOf` is `allow` exactly when the underlying boolean is true. -/
lemma decisionOf_eq_allow (b : Bool) : decisionOf b = GateDecision.allow ↔ b = true := by
  cases b <;> simp [decisionOf]

/-- With both the metadata and the claims' role list present, the roles guard
accepts exactly when some required role is among the user's roles. -/
lemma rolesGuard_some_some (rs us : List String) :
    rolesGuardCanActivate (some rs) (some us) = true ↔ ∃ r ∈ rs, r ∈ us := by
  simp [rolesGuardCanActivate, jsOptIncludes, truthy]

/-- A list intersection is non-empty exactly when the two lists share an
element. -/
lemma inter_ne_nil_iff (us R : List String) :
    us.inter R ≠ [] ↔ ∃ r, r ∈ us ∧ r ∈ R := by
  constructor
  · intro h
    obtain ⟨x, hx⟩ := List.exists_mem_of_ne_nil _ h
    exact ⟨x, List.mem_inter_iff.mp hx⟩
  · rintro ⟨x, h1, h2⟩ hnil
    have hx : x ∈ us.inter R := List.mem_inter_iff.mpr ⟨h1, h2⟩
    rw [hnil] at hx
    exact absurd hx (List.not_mem_nil x)

/-- **C1.** For an operation declaring required-role set `R` and verified
claims carrying role set `us`, `RolesGuard` allows iff `us ∩ R` is non-empty
(any one matching role suffices), and otherwise the outcome is the deny the
spec calls `InsufficientRole`. -/
theorem C1_role_gate_or_semantics (R us : List String) :
    (roleGate R (some us) = GateDecision.allow ↔ us.inter R ≠ []) ∧
    (us.inter R = [] → roleGate R (some us) = GateDecision.deny) := by
  have hmain : roleGate R (some us) = GateDecision.allow ↔ us.inter R ≠ [] := by
    rw [roleGate, decisionOf_eq_allow, rolesGuard_some_some, inter_ne_nil_iff]
    constructor
    · rintro ⟨r, h1, h2⟩; exact ⟨r, h2, h1⟩
    · rintro ⟨r, h1, h2⟩; exact ⟨r, h2, h1⟩
  refine ⟨hmain, fun hempty => ?_⟩
  cases hd : roleGate R (some us) with
  | allow => exact absurd (hmain.mp hd) (not_not_intro hempty)
  | deny => rfl

/-- Witness for C1 at the spec's own example: required roles
`{admin, moderator}`, principal roles `{moderator}` → allow;
principal roles `{user}` → deny. -/
theorem C1_role_gate_or_semantics_witness :
    roleGate ["admin", "moderator"] (some ["moderator"]) = GateDecision.allow ∧
    roleGate ["admin", "moderator"] (some ["user"]) = GateDecision.deny := by
  constructor
  · exact (C1_role_gate_or_semantics ["admin", "moderator"] ["moderator"]).1.mpr
      (by decide)
  · exact (C1_role_gate_or_semantics ["admin", "moderator"] ["user"]).2 (by decide)

/-- **C10.** A verified token whose claims carry no `roles` field at all:
`user.roles?.includes(role)` evaluates to `undefined`, which `some` coerces to
false, so the guard totally returns `false` (deny) for any declared
required-role set, rather than throwing. -/
theorem C10_missing_roles_field_denies (R : List String) :
    rolesGuardCanActivate (some R) none = false := by
  unfold rolesGuardCanActivate jsOptIncludes truthy
  simp

/-- With metadata and a present `permissions` claim, the permissions guard
accepts exactly when every required permission is among the user's. -/
lemma permissionsGuard_some_some (ps ups : List String) :
    permissionsGuardCanActivate (some ps) (some ups) = true ↔ ∀ p ∈ ps, p ∈ ups := by
  simp [permissionsGuardCanActivate]

/-- **C2 counterexample.** The claim says a permission denial names the
missing permissions.  The guard's only output is `false`, mapped to one fixed
deny outcome: two claim sets with different missing-permission sets produce
the identical denial, so the denial cannot name what is missing. -/
theorem C2_counterexample_denial_names_nothing :
    permGate ["create-articles", "edit-articles"] (some ["create-articles"]) =
      permGate ["create-articles", "edit-articles"] (some []) ∧
    missingPermissions ["create-articles", "edit-articles"] ["create-articles"] ≠
      missingPermissions ["create-articles", "edit-articles"] [] := by
  decide

/-- **C2 (amended).** For an operation declaring required-permission set `P`
and claims carrying permission set `ups`, `PermissionsGuard` allows iff every
permission of `P` is present (logical AND); otherwise it denies — with the
generic forbidden outcome, which does not name the missing permissions. -/
theorem C2_permission_gate_and_semantics (P ups : List String) :
    (permGate P (some ups) = GateDecision.allow ↔ ∀ p ∈ P, p ∈ ups) ∧
    ((¬ ∀ p ∈ P, p ∈ ups) → permGate P (some ups) = GateDecision.deny) := by
  have hmain : permGate P (some ups) = GateDecision.allow ↔ ∀ p ∈ P, p ∈ ups := by
    rw [permGate, decisionOf_eq_allow, permissionsGuard_some_some]
  refine ⟨hmain, fun hmiss => ?_⟩
  cases hd : permGate P (some ups) with
  | allow => exact absurd (hmain.mp hd) hmiss
  | deny => rfl

/-- Witness for C2 at the spec's own example: requiring
`{create-articles, edit-articles}`, a principal holding only
`create-articles` is denied, one holding both is allowed. -/
theorem C2_permission_gate_witness :
    permGate ["create-articles", "edit-articles"] (some ["create-articles"]) =
      GateDecision.deny ∧
    permGate ["create-articles", "edit-articles"]
      (some ["create-articles", "edit-articles"]) = GateDecision.allow := by
  constructor
  · exact (C2_permission_gate_and_semantics ["create-articles", "edit-articles"]
      ["create-articles"]).2 (by decide)
  · exact (C2_permission_gate_and_semantics ["create-articles", "edit-articles"]
      ["create-articles", "edit-articles"]).1.mpr (by decide)

/-- Membership in the JS-set fold: an element is in the accumulated result
iff it is in the accumulator or in the remaining input. -/
lemma jsSetDedup_foldl_mem (xs : List String) (acc : List String) (x : String) :
    (x ∈ xs.foldl (fun acc y => if acc.contains y then acc else acc ++ [y]) acc) ↔
      x ∈ acc ∨ x ∈ xs := by
  induction xs generalizing acc with
  | nil => simp
  | cons a t ih =>
    simp only [List.foldl_cons]
    by_cases h : acc.contains a
    · rw [if_pos h, ih]
      have ha : a ∈ acc := by simpa using h
      constructor
      · rintro (h1 | h2)
        · exact Or.inl h1
        · exact Or.inr (List.mem_cons_of_mem a h2)
      · rintro (h1 | h2)
        · exact Or.inl h1
        · rcases List.mem_cons.mp h2 with h3 | h3
          · exact Or.inl (h3 ▸ ha)
          · exact Or.inr h3
    · rw [if_neg h, ih]
      simp only [List.mem_append, List.mem_cons, List.mem_singleton]
      tauto

/-- The JS-set fold preserves freedom from duplicates. -/
lemma jsSetDedup_foldl_nodup (xs : List String) (acc : List String)
    (hacc : acc.Nodup) :
    (xs.foldl (fun acc y => if acc.contains y then acc else acc ++ [y]) acc).Nodup := by
  induction xs generalizing acc with
  | nil => simpa
  | cons a t ih =>
    simp only [List.foldl_cons]
    by_cases h : acc.contains a
    · rw [if_pos h]
      exact ih acc hacc
    · rw [if_neg h]
      apply ih
      have ha : a ∉ acc := by simpa using h
      simp [List.nodup_append, hacc, ha]

/-- `jsSetDedup` keeps exactly the elements of its input. -/
lemma mem_jsSetDedup (xs : List String) (x : String) :
    x ∈ jsSetDedup xs ↔ x ∈ xs := by
  unfold jsSetDedup
  rw [jsSetDedup_foldl_mem]
  simp

/-- `jsSetDedup` never contains duplicates. -/
lemma jsSetDedup_nodup (xs : List String) : (jsSetDedup xs).Nodup :=
  jsSetDedup_foldl_nodup xs [] List.nodup_nil

/-- The snapshot's permission set is exactly the union over the roles. -/
lemma mem_snapshotPermissions (roles : List Role) (p : String) :
    p ∈ snapshotPermissions roles ↔
      ∃ r ∈ roles, p ∈ r.permissions.map Permission.name := by
  unfold snapshotPermissions
  rw [mem_jsSetDedup]
  simp [List.mem_flatMap]

/-- **C3.** The permission set the snapshot builder computes at login is the
deduplicated union of the permissions of the principal's roles, and as a set
it does not depend on the order in which the roles are listed. -/
theorem C3_snapshot_union_dedup_order_independent (roles roles2 : List Role)
    (hperm : roles.Perm roles2) :
    (∀ p, p ∈ snapshotPermissions roles ↔
        ∃ r ∈ roles, p ∈ r.permissions.map Permission.name) ∧
    (snapshotPermissions roles).Nodup ∧
    (∀ p, p ∈ snapshotPermissions roles ↔ p ∈ snapshotPermissions roles2) := by
  refine ⟨fun p => mem_snapshotPermissions roles p, jsSetDedup_nodup _, fun p => ?_⟩
  rw [mem_snapshotPermissions, mem_snapshotPermissions]
  constructor
  · rintro ⟨r, hr, hp⟩
    exact ⟨r, hperm.mem_iff.mp hr, hp⟩
  · rintro ⟨r, hr, hp⟩
    exact ⟨r, hperm.mem_iff.mpr hr, hp⟩

/-- Witness for C3 on two concrete roles listed in both orders: the snapshot
is duplicate-free and membership is order-independent. -/
theorem C3_snapshot_witness :
    (snapshotPermissions [articlesAdminRole, articlesEditorRole]).Nodup ∧
    ("edit-articles" ∈ snapshotPermissions [articlesAdminRole, articlesEditorRole] ↔
      "edit-articles" ∈ snapshotPermissions [articlesEditorRole, articlesAdminRole]) :=
  ⟨(C3_snapshot_union_dedup_order_independent
      [articlesAdminRole, articlesEditorRole]
      [articlesEditorRole, articlesAdminRole]
      (List.Perm.swap articlesEditorRole articlesAdminRole [])).2.1,
   (C3_snapshot_union_dedup_order_independent
      [articlesAdminRole, articlesEditorRole]
      [articlesEditorRole, articlesAdminRole]
      (List.Perm.swap articlesEditorRole articlesAdminRole [])).2.2 "edit-articles"⟩

/-- **C4 counterexample.** The claim says the issued token payload carries a
deduplicated set of permission identifiers.  The shipped `login` signs
exactly `(email, username, sub, roles)`: at the concrete user alice the
payload has no `permissions` field at all. -/
theorem C4_counterexample_no_permissions_in_payload :
    (login 7 1000 3600 alice).access_token.payload =
      some (TokenPayload.mk (loginPayload alice) 4600) ∧
    ¬ ("permissions" ∈ (loginPayload alice).map Prod.fst) := by
  constructor
  · rfl
  · decide

/-- **C4 (amended).** The claims payload of the issued signed token contains
the principal's id (as `sub`), username, email and role set — but no
permission identifiers: the shipped login embeds no `permissions` claim. -/
theorem C4_login_payload_contents (key now ttl : Nat) (u : User) :
    (login key now ttl u).access_token =
      sign key (TokenPayload.mk (loginPayload u) (now + ttl)) ∧
    (loginPayload u).lookup "email" = some (Value.vStr u.email) ∧
    (loginPayload u).lookup "username" = some (Value.vStr u.username) ∧
    (loginPayload u).lookup "sub" = some (Value.vNat u.id) ∧
    (loginPayload u).lookup "roles" = some (Value.vStrList u.roles) ∧
    (loginPayload u).lookup "permissions" = none := by
  refine ⟨rfl, ?_, ?_, ?_, ?_, ?_⟩ <;> simp [loginPayload, List.lookup]

/-- **C5.** A structurally well-formed, correctly signed token whose expiry
is in the past fails verification with kind `Expired` — never `BadSignature`
or `Malformed` — and the guard maps it to the specific
`JWT token has expired` response, which differs from the generic
`Unauthorized` response. -/
theorem C5_expired_token_distinct_kind (key now : Nat) (p : TokenPayload)
    (hpast : p.exp < now) :
    verify key now (sign key p) = Except.error TokenError.expired ∧
    verify key now (sign key p) ≠ Except.error TokenError.badSignature ∧
    verify key now (sign key p) ≠ Except.error TokenError.malformed ∧
    handleRequest (verify key now (sign key p)) =
      Except.error (HttpResponse.mk 401 "JWT token has expired") ∧
    HttpResponse.mk 401 "JWT token has expired" ≠
      HttpResponse.mk 401 "Unauthorized" := by
  have hnl : ¬ now < p.exp := by omega
  have hv : verify key now (sign key p) = Except.error TokenError.expired := by
    simp [verify, sign, hnl]
  refine ⟨hv, ?_, ?_, ?_, by decide⟩
  · rw [hv]; simp
  · rw [hv]; simp
  · rw [hv]; rfl

/-- Witness for C5: a concrete signed token with `exp = 100` verified at
`now = 200` fails as `Expired` and yields the session-expired response. -/
theorem C5_expired_token_witness :
    verify 7 200 (sign 7 (TokenPayload.mk [] 100)) =
      Except.error TokenError.expired ∧
    handleRequest (verify 7 200 (sign 7 (TokenPayload.mk [] 100))) =
      Except.error (HttpResponse.mk 401 "JWT token has expired") :=
  ⟨(C5_expired_token_distinct_kind 7 200 (TokenPayload.mk [] 100) (by decide)).1,
   (C5_expired_token_distinct_kind 7 200 (TokenPayload.mk [] 100)
      (by decide)).2.2.2.1⟩

/-- **C6.** An authentication attempt with an unknown email fails as
`IdentityNotFound`; one with a known email but a secret that does not match
the stored digest fails as `InvalidCredentials` — never `IdentityNotFound`. -/
theorem C6_auth_error_kinds (compare : String → String → Bool) (db : List User)
    (email pass : String) :
    (findOneByEmail db email = none →
      validateUser compare db email pass =
        Except.error AuthError.identityNotFound) ∧
    (∀ u, findOneByEmail db email = some u → compare pass u.password = false →
      validateUser compare db email pass =
        Except.error AuthError.invalidCredentials) := by
  constructor
  · intro h
    simp [validateUser, h]
  · intro u hu hc
    simp [validateUser, hu, hc]

/-- Witness for C6: against a store holding only alice, a login for bob fails
as `IdentityNotFound` and a login for alice with the wrong password fails as
`InvalidCredentials`. -/
theorem C6_auth_error_kinds_witness :
    validateUser bcryptCompare [alice] "bob@example.com" "alicepw" =
      Except.error AuthError.identityNotFound ∧
    validateUser bcryptCompare [alice] "alice@example.com" "wrongpw" =
      Except.error AuthError.invalidCredentials :=
  ⟨(C6_auth_error_kinds bcryptCompare [alice] "bob@example.com" "alicepw").1
      (by decide),
   (C6_auth_error_kinds bcryptCompare [alice] "alice@example.com" "wrongpw").2
      alice (by decide) (by decide)⟩

/-- **C7 counterexample.** The claim says the two failures are
indistinguishable at the transport boundary.  Concretely they are not: an
unregistered email is answered with 404 `User not found`, a wrong password
with 401 `Invalid credentials`. -/
theorem C7_counterexample_responses_distinguishable :
    loginFailureResponse bcryptCompare [alice] "ghost@example.com" "alicepw" =
      some (HttpResponse.mk 404 "User not found") ∧
    loginFailureResponse bcryptCompare [alice] "alice@example.com" "wrongpw" =
      some (HttpResponse.mk 401 "Invalid credentials") ∧
    loginFailureResponse bcryptCompare [alice] "ghost@example.com" "alicepw" ≠
      loginFailureResponse bcryptCompare [alice] "alice@example.com" "wrongpw" := by
  refine ⟨?_, ?_, ?_⟩ <;> decide

/-- **C7 (amended).** The two failed authentication attempts are
distinguishable at the transport boundary: the internal `IdentityNotFound`
surfaces as status 404 and `InvalidCredentials` as status 401, so the
boundary does leak which failure occurred (account enumeration is
possible). -/
theorem C7_transport_leaks_failure_kind (compare : String → String → Bool)
    (db : List User) (email1 pass1 email2 pass2 : String) (u : User)
    (h1 : findOneByEmail db email1 = none)
    (h2 : findOneByEmail db email2 = some u)
    (h3 : compare pass2 u.password = false) :
    loginFailureResponse compare db email1 pass1 =
      some (HttpResponse.mk 404 "User not found") ∧
    loginFailureResponse compare db email2 pass2 =
      some (HttpResponse.mk 401 "Invalid credentials") ∧
    (HttpResponse.mk 404 "User not found").status ≠
      (HttpResponse.mk 401 "Invalid credentials").status := by
  refine ⟨?_, ?_, by decide⟩
  · simp [loginFailureResponse, validateUser, h1, authErrorResponse]
  · simp [loginFailureResponse, validateUser, h2, h3, authErrorResponse]

/-- Witness for the amended C7, at the store holding only alice. -/
theorem C7_transport_leaks_witness :
    loginFailureResponse bcryptCompare [alice] "nobody@example.com" "pw" =
      some (HttpResponse.mk 404 "User not found") ∧
    loginFailureResponse bcryptCompare [alice] "alice@example.com" "badpw" =
      some (HttpResponse.mk 401 "Invalid credentials") :=
  ⟨(C7_transport_leaks_failure_kind bcryptCompare [alice] "nobody@example.com"
      "pw" "alice@example.com" "badpw" alice (by decide) (by decide)
      (by decide)).1,
   (C7_transport_leaks_failure_kind bcryptCompare [alice] "nobody@example.com"
      "pw" "alice@example.com" "badpw" alice (by decide) (by decide)
      (by decide)).2.1⟩

/-- **C8.** `create` checks the email and username uniqueness invariants
before the save: a conflict on either fails with a `ConflictException`
naming the conflicting field and leaves the store unchanged; only when both
checks pass is the new principal (with hashed password and default role
`user`) appended. -/
theorem C8_create_checks_before_write (hash : String → String) (db : List User)
    (nextId : Nat) (email username pass : String) :
    ((findOneByEmail db email).isSome = true →
      create hash db nextId email username pass =
        (Except.error (ConflictError.mk ConflictField.email
          "User with this email already exists"), db)) ∧
    ((findOneByEmail db email).isSome = false →
      (findOneByUsername db username).isSome = true →
      create hash db nextId email username pass =
        (Except.error (ConflictError.mk ConflictField.username
          "User with this username already exists"), db)) ∧
    (∀ e dbOut, create hash db nextId email username pass =
        (Except.error e, dbOut) → dbOut = db) ∧
    ((findOneByEmail db email).isSome = false →
      (findOneByUsername db username).isSome = false →
      create hash db nextId email username pass =
        (Except.ok (User.mk nextId username (hash pass) email ["user"]),
         db ++ [User.mk nextId username (hash pass) email ["user"]])) := by
  refine ⟨fun h1 => by simp [create, h1], fun h1 h2 => by simp [create, h1, h2],
    ?_, fun h1 h2 => by simp [create, h1, h2]⟩
  intro e dbOut h
  unfold create at h
  split_ifs at h
  · exact (congrArg Prod.snd h).symm
  · exact (congrArg Prod.snd h).symm
  · exact absurd (congrArg Prod.fst h) (by simp)

/-- Witness for C8: signing bob up against a store holding only alice
succeeds and appends bob; re-signing alice's email or username conflicts,
naming the right field, with the store unchanged. -/
theorem C8_create_checks_witness :
    create bcryptHash [alice] 2 "alice@example.com" "alice2" "pw" =
      (Except.error (ConflictError.mk ConflictField.email
        "User with this email already exists"), [alice]) ∧
    create bcryptHash [alice] 2 "fresh@example.com" "alice" "pw" =
      (Except.error (ConflictError.mk ConflictField.username
        "User with this username already exists"), [alice]) ∧
    create bcryptHash [alice] 2 "bob@example.com" "bob" "bobpw" =
      (Except.ok bobUser, [alice] ++ [bobUser]) :=
  ⟨(C8_create_checks_before_write bcryptHash [alice] 2 "alice@example.com"
      "alice2" "pw").1 (by decide),
   (C8_create_checks_before_write bcryptHash [alice] 2 "fresh@example.com"
      "alice" "pw").2.1 (by decide) (by decide),
   (C8_create_checks_before_write bcryptHash [alice] 2 "bob@example.com"
      "bob" "bobpw").2.2.2 (by decide) (by decide)⟩

/-- Looking up the omitted key after JS rest destructuring finds nothing. -/
lemma lookup_omitKey (k : String) (fields : List (String × Value)) :
    (omitKey k fields).lookup k = none := by
  induction fields with
  | nil => rfl
  | cons kv t ih =>
    obtain ⟨k1, v1⟩ := kv
    by_cases h : k1 = k
    · simpa [omitKey, List.filter_cons, h] using ih
    · have hbeq : (k == k1) = false := beq_eq_false_iff_ne.mpr (Ne.symm h)
      simp only [omitKey, List.filter_cons] at ih ⊢
      rw [if_pos (by simpa using h)]
      simp only [List.lookup, hbeq]
      exact ih

/-- **C9.** The principal object a successful authentication returns, and the
data of a successful signup response, carry no `password` field: the stored
digest is stripped before the result leaves the service. -/
theorem C9_password_stripped (compare : String → String → Bool)
    (hash : String → String) (db db2 : List User) (nextId : Nat)
    (email username pass : String) (fields : List (String × Value))
    (resp : ApiResponse) :
    (validateUser compare db email pass = Except.ok fields →
      fields.lookup "password" = none) ∧
    (signup hash db nextId email username pass = (Except.ok resp, db2) →
      resp.data.lookup "password" = none) := by
  constructor
  · intro h
    cases hf : findOneByEmail db email with
    | none => simp [validateUser, hf] at h
    | some u =>
      by_cases hc : compare pass u.password
      · simp [validateUser, hf, hc] at h
        rw [← h]
        exact lookup_omitKey "password" (userFields u)
      · simp [validateUser, hf, hc] at h
  · intro h
    unfold signup at h
    cases hc : create hash db nextId email username pass with
    | mk res dbc =>
      rw [hc] at h
      cases res with
      | error e => simp at h
      | ok u =>
        simp only at h
        injection h with h1 h2
        injection h1 with h1
        rw [← h1]
        exact lookup_omitKey "password" (userFields u)

/-- Witness for C9: alice's successful login result and bob's signup response
both lack the `password` field. -/
theorem C9_password_stripped_witness :
    (omitKey "password" (userFields alice)).lookup "password" = none ∧
    (ApiResponse.mk 201 "Signup successful"
      (omitKey "password" (userFields bobUser))).data.lookup "password" = none :=
  ⟨(C9_password_stripped bcryptCompare bcryptHash [alice] ([alice] ++ [bobUser])
      2 "alice@example.com" "alice" "alicepw"
      (omitKey "password" (userFields alice))
      (ApiResponse.mk 201 "Signup successful"
        (omitKey "password" (userFields bobUser)))).1 rfl,
   (C9_password_stripped bcryptCompare bcryptHash [alice] ([alice] ++ [bobUser])
      2 "bob@example.com" "bob" "bobpw"
      (omitKey "password" (userFields alice))
      (ApiResponse.mk 201 "Signup successful"
        (omitKey "password" (userFields bobUser)))).2 rfl⟩
